import Mathlib

/-!
Verification of the bioconvert core (src/bioconvert/core/base.py):
the converter contract validator/registrar (metaclass ConvMeta) and the
external-process execution engine (ConvBase.execute / ConvBase._execute),
shallowly embedded in Lean 4.

Python values relevant to the extension declarations are modelled by the
inductive type PyVal; exceptions by PyError; log/print diagnostics are
collected in a List String returned alongside each result.  Quote
characters that the Python format strings place around attribute names
are omitted from the embedded message texts; the texts are otherwise kept.
-/

namespace Bioconvert

/-- An element of a declared extension sequence.  check_ext only ever asks
isinstance(x, str) of an element, so any non-string element is modelled by
an integer. -/
inductive PyItem where
  | istr (s : String)
  | iint (n : Int)
deriving DecidableEq, Repr

/-- A Python value as it can appear in an input_ext / output_ext class
attribute: a string, a sequence (list/tuple/set), None, or some other
non-sequence object (modelled by an integer). -/
inductive PyVal where
  | pstr (s : String)
  | pseq (xs : List PyItem)
  | pnone
  | pint (n : Int)
deriving DecidableEq, Repr

/-- A raised Python exception, with its message where the code supplies one. -/
inductive PyError where
  | typeError (msg : String)
  | runtimeError (msg : String)
  | nameError (var : String)
  | attributeError (msg : String)
deriving DecidableEq, Repr

/-- s.startswith of a dot: true iff the first character is a dot. -/
def startsWithDot (s : String) : Bool :=
  match s.data with
  | [] => false
  | c :: _ => c = '.'

/-- Decidable equality of Except results, used to evaluate the embedded
functions on concrete inputs. -/
instance exceptDecEq {ε α : Type} [DecidableEq ε] [DecidableEq α] :
    DecidableEq (Except ε α)
  | .error x, .error y =>
      if h : x = y then .isTrue (by rw [h])
      else .isFalse (fun hc => h (Except.error.inj hc))
  | .error _, .ok _ => .isFalse (fun hc => Except.noConfusion hc)
  | .ok _, .error _ => .isFalse (fun hc => Except.noConfusion hc)
  | .ok x, .ok y =>
      if h : x = y then .isTrue (by rw [h])
      else .isFalse (fun hc => h (Except.ok.inj hc))

/-- isinstance(x, str) for a sequence element. -/
def PyItem.isStr : PyItem → Bool
  | .istr _ => true
  | _ => false

/-- one_ext.startswith of a dot, for a sequence element (only ever reached
on string elements). -/
def PyItem.startsDotted : PyItem → Bool
  | .istr s => startsWithDot s
  | _ => false

/-- The dot-fixing loop body of check_ext for a sequence element. -/
def PyItem.fixDot : PyItem → PyItem
  | .istr s => .istr (if startsWithDot s then s else "." ++ s)
  | other => other

/-- The dot-fixing step of check_ext applied to one extension string:
prefix a dot when the string does not already start with one
(base.py lines 65-66 and 76-79). -/
def fixOneExt (s : String) : String :=
  if startsWithDot s then s else "." ++ s

/-- The error message of the heterogeneous-sequence branch of check_ext
(base.py lines 70-71); the class repr is stood in for by the class name. -/
def seqErrMsg (clsName io_name : String) : String :=
  "each element of the class attribute " ++ clsName ++ "." ++ io_name ++
    "_ext must be a string"

/-- The error message of the unsupported-type branch of check_ext
(base.py lines 83-87). -/
def badTypeErrMsg (clsName io_name : String) : String :=
  "the class attribute " ++ clsName ++ "." ++ io_name ++
    "_ext must be specified in the class or subclasses"

/-- The log warning emitted by the unsupported-type branch of check_ext
(base.py line 85). -/
def skipWarnMsg (clsName io_name : String) : String :=
  "skip class " ++ clsName ++ ": " ++ badTypeErrMsg clsName io_name

/-- check_ext from ConvMeta.__init__ (base.py lines 53-88).  The argument
ext is the current value of the (input|output)_ext class attribute; the
result carries the warnings logged and either the value the attribute
holds after the call (check_ext mutates the class via setattr) or the
raised TypeError.
  - a string s is wrapped (after dot-fixing) into the one-element tuple;
  - a sequence is rejected when some element is not a string; when all
    elements are strings but not all start with a dot, a fixed list is
    attached; when all start with a dot no setattr happens and the
    attribute keeps its declared value;
  - anything else logs a warning and raises TypeError. -/
def check_ext (clsName : String) (ext : PyVal) (io_name : String) :
    List String × Except PyError PyVal :=
  match ext with
  | .pstr s => ([], .ok (.pseq [.istr (fixOneExt s)]))
  | .pseq xs =>
      if xs.all PyItem.isStr then
        if xs.all PyItem.startsDotted then
          ([], .ok (.pseq xs))
        else
          ([], .ok (.pseq (xs.map PyItem.fixDot)))
      else
        ([], .error (.typeError (seqErrMsg clsName io_name)))
  | _ =>
      ([skipWarnMsg clsName io_name],
       .error (.typeError (badTypeErrMsg clsName io_name)))

/-- str.upper over a whole string (per character, basic latin as in the
converter class names). -/
def pyUpper (s : String) : String := ⟨s.data.map Char.toUpper⟩

/-- name.split(c, 1) for a name containing c: the part before the first
occurrence of c and the part after it. -/
def pySplitFirst (s : String) (c : Char) : String × String :=
  (⟨s.data.takeWhile (fun x => x ≠ c)⟩,
   ⟨(s.data.dropWhile (fun x => x ≠ c)).drop 1⟩)

/-- The membership test (the Python expression c in s). -/
def pyContains (s : String) (c : Char) : Bool := s.data.contains c

/-- The class-level attributes ConvMeta.__init__ reads and writes:
the two extension declarations (input_ext, output_ext) and the derived
format tokens (input_fmt, output_fmt), absent before registration. -/
structure ClsState where
  input_ext : PyVal
  output_ext : PyVal
  input_fmt : Option String
  output_fmt : Option String
deriving DecidableEq, Repr

/-- ConvMeta.__init__ (base.py lines 51-99) acting on a class named
name with attribute state st.  Returns the warnings logged, the class
state when the call returns or raises, and the raised error if any.
The class named ConvBase is exempt from every check.  Otherwise the
name must contain the character 2 (else TypeError); the format tokens
are name.upper().split(2, 1); check_ext runs on the input side (mutating
input_ext), then on the output side, and only after both succeed are
input_fmt and output_fmt attached. -/
def convMetaInit (name : String) (st : ClsState) :
    List String × ClsState × Option PyError :=
  if name = "ConvBase" then ([], st, none)
  else if ¬ pyContains name '2' then
    ([], st, some (.typeError "converter name must follow convention input2output"))
  else
    match check_ext name st.input_ext "input" with
    | (logs₁, .error e) => (logs₁, st, some e)
    | (logs₁, .ok a₁) =>
        match check_ext name st.output_ext "output" with
        | (logs₂, .error e) =>
            (logs₁ ++ logs₂, { st with input_ext := a₁ }, some e)
        | (logs₂, .ok a₂) =>
            (logs₁ ++ logs₂,
             { st with input_ext := a₁, output_ext := a₂,
                       input_fmt := some (pySplitFirst (pyUpper name) '2').1,
                       output_fmt := some (pySplitFirst (pyUpper name) '2').2 },
             none)



/-- One of the two watched pipes of the child process. -/
inductive Pipe where
  | stdout
  | stderr
deriving DecidableEq, Repr

/-- One read event: select reported flow as readable and flow.read()
returned data (already decoded); empty data means the pipe is at end of
file. -/
structure ReadEv where
  flow : Pipe
  data : String
deriving DecidableEq, Repr

/-- The observable behaviour of one spawned child process, abstracting
the operating system: iters lists, for each pass of the outer loop in
which poll() was still None, the successive select results of that pass
(each one a list of read events); exitCode is the final returncode. -/
structure Schedule where
  iters : List (List (List ReadEv))
  exitCode : Int
deriving DecidableEq, Repr

/-- Popen either raises an OS error or yields a process behaving per a
schedule (base.py lines 175-183). -/
inductive SpawnBehavior where
  | fail (oserr : String)
  | runs (sched : Schedule)
deriving DecidableEq, Repr

/-- The mutable data of the stream-draining loop: the still-watched
inputs and the output/errors accumulators of the current outer pass. -/
structure LoopBufs where
  inputs : List Pipe
  output : String
  errors : String
deriving DecidableEq, Repr

/-- Body of the for flow in readable loop (base.py lines 198-208): a read
yielding no data removes the flow from inputs; the data (possibly empty)
is appended to the accumulator matching the flow. -/
def processEv (b : LoopBufs) (ev : ReadEv) : LoopBufs :=
  let inputs := if ev.data = "" then b.inputs.erase ev.flow else b.inputs
  match ev.flow with
  | .stdout => { inputs := inputs, output := b.output ++ ev.data, errors := b.errors }
  | .stderr => { inputs := inputs, output := b.output, errors := b.errors ++ ev.data }

/-- The inner while readable and inputs loop of one outer pass (base.py
lines 197-209).  sels is the sequence of select results of the pass;
select only reports flows still being watched, so each result is
restricted to members of inputs.  The loop stops when a select result is
empty or no flow is watched any more (an exhausted sels stands for a
select timeout that reported nothing readable). -/
def innerLoop : List (List ReadEv) → LoopBufs → LoopBufs
  | [], b => b
  | sel :: rest, b =>
      let readable := sel.filter (fun ev => b.inputs.contains ev.flow)
      if readable = [] ∨ b.inputs = [] then b
      else innerLoop rest (readable.foldl processEv b)

/-- The outer while process.poll() is None loop (base.py lines 186-209).
Each entry of iters is one pass in which the process was still alive;
output and errors are rebound to fresh buffers at the start of every
pass (base.py lines 195-196), so accumulations of earlier passes are
discarded.  The accumulators are none while still unbound, i.e. while
the loop body has never run. -/
def outerLoop : List (List (List ReadEv)) → List Pipe →
    Option String × Option String → List Pipe × Option String × Option String
  | [], inputs, acc => (inputs, acc)
  | iter :: rest, inputs, _ =>
      let b := innerLoop iter ⟨inputs, "", ""⟩
      outerLoop rest b.inputs (some b.output, some b.errors)

/-- What a call of _execute does: either return a value (the stdout
buffer on exit code 0, or Python None on the ignored-failure path) or
raise an exception. -/
inductive ExecOutcome where
  | returned (out : Option String)
  | raised (e : PyError)
deriving DecidableEq, Repr

/-- The spawn-failure message of base.py line 182 (quote characters
omitted). -/
def spawnErrMsg (cmd oserr : String) : String :=
  "Failed to execute Command: " ++ cmd ++ ". error: " ++ oserr

/-- A whitespace character, as str.strip removes. -/
def isSpaceChar (c : Char) : Bool := c = ' ' ∨ c = '\t' ∨ c = '\n' ∨ c = '\r'

/-- str.strip: remove leading and trailing whitespace. -/
def pyStrip (s : String) : String :=
  ⟨((s.data.dropWhile isSpaceChar).reverse.dropWhile isSpaceChar).reverse⟩

/-- ConvBase._execute (base.py lines 162-220).  A failed Popen raises
RuntimeError with the spawn message.  Otherwise the two pipes are
drained per the schedule; then, with verbose set, the local errors is
rebound to the stripped stderr string and printed when non-empty
(NameError when the outer loop never ran and errors is unbound); then a
non-zero exit code raises RuntimeError(errors.getvalue()) unless
ignore_errors — under verbose that getvalue call is made on a str and
raises AttributeError instead — and a zero exit code returns the output
buffer (NameError when unbound).  The returned list collects what was
printed to sys.stderr. -/
def ConvBase._execute (cmd : String) (ignore_errors verbose : Bool)
    (beh : SpawnBehavior) : List String × ExecOutcome :=
  match beh with
  | .fail oserr => ([], .raised (.runtimeError (spawnErrMsg cmd oserr)))
  | .runs sched =>
      let r := outerLoop sched.iters [Pipe.stdout, Pipe.stderr] (none, none)
      let out? := r.2.1
      let err? := r.2.2
      match verbose, err? with
      | true, none => ([], .raised (.nameError "errors"))
      | true, some e =>
          let stripped := pyStrip e
          let prints := if stripped = "" then [] else [stripped]
          if sched.exitCode ≠ 0 then
            if ignore_errors then (prints, .returned none)
            else (prints, .raised (.attributeError "str object has no attribute getvalue"))
          else
            match out? with
            | none => (prints, .raised (.nameError "output"))
            | some o => (prints, .returned (some o))
      | false, _ =>
          if sched.exitCode ≠ 0 then
            if ignore_errors then ([], .returned none)
            else
              match err? with
              | none => ([], .raised (.nameError "errors"))
              | some e => ([], .raised (.runtimeError e))
          else
            match out? with
            | none => ([], .raised (.nameError "output"))
            | some o => ([], .returned (some o))

/-- A log line of ConvBase.execute: either a plain text diagnostic or
the Took ... seconds line carrying the elapsed time. -/
inductive LogMsg where
  | line (s : String)
  | took (seconds : ℚ)
deriving DecidableEq, Repr

/-- The instance attributes ConvBase.execute writes; none before the
first call. -/
structure ConvState where
  last_duration : Option ℚ
  _last_time : Option ℚ
deriving DecidableEq, Repr

/-- ConvBase.execute (base.py lines 152-159).  t1 and t2 are the two
time.time() readings.  The command result of _execute is discarded; an
exception raised by _execute propagates before t2 is read, so the
timing attributes are written and the Took diagnostic emitted only when
_execute returns. -/
def ConvBase.execute (name cmd : String) (ignore_errors verbose : Bool)
    (beh : SpawnBehavior) (t1 t2 : ℚ) (st : ConvState) :
    List LogMsg × ConvState × Option PyError :=
  match ConvBase._execute cmd ignore_errors verbose beh with
  | (prints, .raised e) =>
      ([LogMsg.line (name ++ "> ")] ++ prints.map LogMsg.line, st, some e)
  | (prints, .returned _) =>
      ([LogMsg.line (name ++ "> ")] ++ prints.map LogMsg.line ++
         [LogMsg.took (t2 - t1)],
       ⟨some (t2 - t1), some (t2 - t1)⟩, none)

/-- A converter instance as ConvBase.__init__ builds it (base.py lines
124-132): the two paths, stored as given. -/
structure ConvInstance where
  infile : String
  outfile : String
deriving DecidableEq, Repr

/-- ConvBase._check_extension (base.py lines 135-136): a stub that only
prints a FIXME line and touches nothing. -/
def ConvBase._check_extension (inst : ConvInstance) : ConvInstance × List String :=
  (inst, ["FIXME _check_extension"])

/-- ConvBase.__init__ (base.py lines 124-132): store infile and outfile
on the instance, then run the per-instance extension check.  Returns the
instance and what was printed. -/
def ConvBase.init (infile outfile : String) : ConvInstance × List String :=
  ConvBase._check_extension ⟨infile, outfile⟩




/-! Helper lemmas shared by the claim theorems. -/

/-- The dot-fixing step always yields a dotted string. -/
theorem startsWithDot_fixOneExt (s : String) : startsWithDot (fixOneExt s) = true := by
  unfold fixOneExt
  split_ifs with h
  · exact h
  · show startsWithDot ("." ++ s) = true
    simp [startsWithDot, String.data_append]

/-- The dot-fixing step keeps an already dotted string unchanged. -/
theorem fixOneExt_of_dotted {s : String} (h : startsWithDot s = true) :
    fixOneExt s = s := by
  unfold fixOneExt
  exact if_pos h

/-- fixDot on a string element is the dot-fixing step under istr. -/
theorem fixDot_istr (s : String) :
    PyItem.fixDot (.istr s) = .istr (fixOneExt s) := rfl

/-- The elements produced by mapping fixDot over string elements are
string elements again. -/
theorem all_isStr_map_fixDot {xs : List PyItem} (h : xs.all PyItem.isStr = true) :
    (xs.map PyItem.fixDot).all PyItem.isStr = true := by
  simp only [List.all_eq_true, List.mem_map] at h ⊢
  rintro _ ⟨x, hx, rfl⟩
  cases x with
  | istr s => simp [PyItem.fixDot, PyItem.isStr]
  | iint n => exact absurd (h _ hx) (by simp [PyItem.isStr])

/-- Mapping fixDot over string elements yields dotted elements only. -/
theorem all_startsDotted_map_fixDot {xs : List PyItem}
    (h : xs.all PyItem.isStr = true) :
    (xs.map PyItem.fixDot).all PyItem.startsDotted = true := by
  simp only [List.all_eq_true, List.mem_map] at h ⊢
  rintro _ ⟨x, hx, rfl⟩
  cases x with
  | istr s =>
      rw [fixDot_istr]
      exact startsWithDot_fixOneExt s
  | iint n => exact absurd (h _ hx) (by simp [PyItem.isStr])

/-- Basic-latin uppercasing sends no character to the digit 2 except the
digit 2 itself. -/
theorem toUpper_eq_digit2_iff (c : Char) : c.toUpper = '2' ↔ c = '2' := by
  have hc2 : 97 ≤ c.toNat ∧ c.toNat ≤ 122 → c ≠ '2' := by
    intro h h2
    subst h2
    exact absurd h (by decide)
  simp only [Char.toUpper]
  split_ifs with h
  · constructor
    · intro h2
      exfalso
      obtain ⟨ha, hb⟩ := h
      revert h2
      generalize c.toNat = n at ha hb
      interval_cases n <;> decide
    · intro h2
      exact absurd h2 (hc2 h)
  · exact Iff.rfl

/-- Uppercasing first and splitting on the first 2 afterwards is the
same as splitting on the first 2 and uppercasing the two halves. -/
theorem pySplitFirst_pyUpper (s : String) :
    pySplitFirst (pyUpper s) '2' =
      (pyUpper (pySplitFirst s '2').1, pyUpper (pySplitFirst s '2').2) := by
  have hp : ((fun x : Char => decide (x ≠ '2')) ∘ Char.toUpper) =
      (fun x : Char => decide (x ≠ '2')) := by
    funext c
    simp [Function.comp, toUpper_eq_digit2_iff]
  unfold pySplitFirst pyUpper
  refine Prod.ext ?_ ?_ <;> simp only
  · rw [List.takeWhile_map, hp]
  · rw [List.dropWhile_map, hp, ← List.map_drop]

/-! Claim theorems. -/

/-- Claim C1 (code bug): the claim says that on exit code 0 the run
returns the accumulated stdout containing everything the process wrote.
The code rebinds the output and errors buffers at the start of every
pass of the poll loop, so stdout collected in an earlier pass is
discarded: on a schedule where the process writes a line in one pass and
another line in a later pass and then exits 0, _execute returns only the
last line instead of both. -/
theorem C1_stdout_dropped_across_poll_passes :
    ConvBase._execute "cmd" false false
      (.runs ⟨[[[⟨.stdout, "a\n"⟩]],
               [[⟨.stdout, "b\n"⟩], [⟨.stdout, ""⟩, ⟨.stderr, ""⟩]]], 0⟩) =
      ([], .returned (some "b\n")) ∧
    ("a\n" ++ "b\n" : String) ≠ "b\n" := by decide

/-- Claim C2 (code bug): the claim says a non-zero exit with ignoreErrors
false fails with a CommandFailedError carrying the accumulated stderr for
every value of verbose.  With verbose true the code first rebinds the
local errors to the stripped stderr string, so the subsequent
errors.getvalue() in the raise statement is called on a str and raises
AttributeError instead of the documented RuntimeError: here the command
exits 1 having written boom to stderr, and _execute raises
AttributeError. -/
theorem C2_verbose_raises_attribute_error :
    ConvBase._execute "false" false true
      (.runs ⟨[[[⟨.stderr, "boom"⟩], [⟨.stdout, ""⟩, ⟨.stderr, ""⟩]]], 1⟩) =
      (["boom"], .raised (.attributeError "str object has no attribute getvalue")) := by
  decide

/-- Claim C4: when the process cannot be created, _execute raises a
RuntimeError (the SpawnError of the spec) whose message carries the
command and the underlying OS error, emits nothing, and does not return
any output, for every command and every flag combination. -/
theorem C4_spawn_failure_raises (cmd oserr : String) (ignore_errors verbose : Bool) :
    ConvBase._execute cmd ignore_errors verbose (.fail oserr) =
      ([], .raised (.runtimeError (spawnErrMsg cmd oserr))) ∧
    spawnErrMsg cmd oserr =
      ("Failed to execute Command: " ++ cmd) ++ (". error: " ++ oserr) ∧
    ∀ out, (ConvBase._execute cmd ignore_errors verbose (.fail oserr)).2 ≠
      .returned out := by
  refine ⟨rfl, by simp [spawnErrMsg, String.append_assoc], ?_⟩
  intro out h
  simp [ConvBase._execute] at h

/-- Witness for C4 at a concrete command. -/
theorem C4_spawn_failure_raises_witness :
    ConvBase._execute "nosuchprog" false false (.fail "No such file or directory") =
      ([], .raised (.runtimeError (spawnErrMsg "nosuchprog" "No such file or directory"))) :=
  (C4_spawn_failure_raises "nosuchprog" "No such file or directory" false false).1

/-- Claim C10: constructing a converter instance from any two strings
succeeds, stores both paths unchanged, and the per-instance extension
check is a no-op that only prints a FIXME line. -/
theorem C10_init_stores_paths (infile outfile : String) :
    (ConvBase.init infile outfile).1.infile = infile ∧
    (ConvBase.init infile outfile).1.outfile = outfile ∧
    (∀ inst : ConvInstance, (ConvBase._check_extension inst).1 = inst) ∧
    (ConvBase.init infile outfile).2 = ["FIXME _check_extension"] :=
  ⟨rfl, rfl, fun _ => rfl, rfl⟩

/-- Claim C5 is refuted on the code: execute stores no duration when the
inner _execute raises.  Concretely, a command that exits 1 (default
flags) raises, and the instance attribute last_duration is still unset
after the call, although the claim says the duration is stored
regardless of whether the call succeeds or fails. -/
theorem C5_no_duration_on_failure_cex :
    ConvBase.execute "N" "false" false false
        (.runs ⟨[[[⟨.stdout, ""⟩, ⟨.stderr, ""⟩]]], 1⟩) 0 1 ⟨none, none⟩ =
      ([.line "N> "], ⟨none, none⟩, some (.runtimeError "")) ∧
    (⟨none, none⟩ : ConvState).last_duration = none := by decide

/-- Claim C5 as amended: after every execution call in which _execute
returns normally, the duration t2 - t1 (non-negative when the clock did
not go backwards) is stored in last_duration on the owning instance and
the Took diagnostic carrying that elapsed time is emitted; when _execute
raises, the exception propagates and the instance attributes are left
untouched. -/
theorem C5_duration_recorded_on_return (name cmd : String)
    (ignore_errors verbose : Bool) (beh : SpawnBehavior) (t1 t2 : ℚ)
    (st : ConvState) (h : t1 ≤ t2) :
    (∀ logs st2,
      ConvBase.execute name cmd ignore_errors verbose beh t1 t2 st =
        (logs, st2, none) →
      st2.last_duration = some (t2 - t1) ∧ 0 ≤ t2 - t1 ∧
        LogMsg.took (t2 - t1) ∈ logs) ∧
    (∀ logs st2 e,
      ConvBase.execute name cmd ignore_errors verbose beh t1 t2 st =
        (logs, st2, some e) →
      st2 = st) := by
  unfold ConvBase.execute
  constructor
  · intro logs st2 hcall
    split at hcall
    · simp only [Prod.mk.injEq] at hcall
      exact absurd hcall.2.2 (by simp)
    · simp only [Prod.mk.injEq] at hcall
      refine ⟨?_, sub_nonneg.mpr h, ?_⟩
      · rw [← hcall.2.1]
      · rw [← hcall.1]
        simp
  · intro logs st2 e hcall
    split at hcall
    · simp only [Prod.mk.injEq] at hcall
      exact hcall.2.1.symm
    · simp only [Prod.mk.injEq] at hcall
      exact absurd hcall.2.2 (by simp)

/-- Witness for the amended C5 at a concrete successful call. -/
theorem C5_duration_recorded_witness :
    (⟨some ((1 : ℚ) - 0), some (1 - 0)⟩ : ConvState).last_duration =
      some ((1 : ℚ) - 0) ∧
    (0 : ℚ) ≤ 1 - 0 ∧
    LogMsg.took (1 - 0) ∈ [LogMsg.line "N> ", LogMsg.took (1 - 0)] :=
  (C5_duration_recorded_on_return "N" "true" false false
      (.runs ⟨[[[⟨.stdout, ""⟩, ⟨.stderr, ""⟩]]], 0⟩) 0 1 ⟨none, none⟩
      (by norm_num)).1
    [LogMsg.line "N> ", LogMsg.took (1 - 0)] ⟨some (1 - 0), some (1 - 0)⟩
    rfl

/-- Claim C3 is refuted on the code: check_ext attaches the normalized
input-side extensions as a side effect of validating them, before the
output side is checked.  Concretely, for a type whose input_ext is the
string fa and whose output_ext is None, registration fails on the output
side, yet the stored input_ext has already been rewritten from the
string fa to the normalized tuple (.fa,). -/
theorem C3_input_ext_mutated_on_output_failure_cex :
    convMetaInit "Fasta2Fastq" ⟨.pstr "fa", .pnone, none, none⟩ =
      ([skipWarnMsg "Fasta2Fastq" "output"],
       ⟨.pseq [.istr ".fa"], .pnone, none, none⟩,
       some (.typeError (badTypeErrMsg "Fasta2Fastq" "output"))) ∧
    PyVal.pseq [.istr ".fa"] ≠ PyVal.pstr "fa" := by decide

/-- Claim C3 as amended: on every failing registration no descriptor
metadata other than the input-side extension normalization is attached —
the format tokens input_fmt and output_fmt and the output-side extension
attribute are exactly what they were before the call; only the
input-side extension attribute may already have been normalized when the
output-side check is the one that fails. -/
theorem C3_failure_attaches_no_descriptor (name : String) (st : ClsState)
    (logs : List String) (st2 : ClsState) (e : PyError)
    (h : convMetaInit name st = (logs, st2, some e)) :
    st2.input_fmt = st.input_fmt ∧ st2.output_fmt = st.output_fmt ∧
    st2.output_ext = st.output_ext := by
  unfold convMetaInit at h
  split at h
  · simp only [Prod.mk.injEq] at h
    exact absurd h.2.2 (by simp)
  · split at h
    · simp only [Prod.mk.injEq] at h
      rw [← h.2.1]
      exact ⟨rfl, rfl, rfl⟩
    · split at h
      · simp only [Prod.mk.injEq] at h
        rw [← h.2.1]
        exact ⟨rfl, rfl, rfl⟩
      · split at h
        · simp only [Prod.mk.injEq] at h
          rw [← h.2.1]
          exact ⟨rfl, rfl, rfl⟩
        · simp only [Prod.mk.injEq] at h
          exact absurd h.2.2 (by simp)

/-- Witness for the amended C3 at the concrete failing registration. -/
theorem C3_failure_attaches_no_descriptor_witness :
    (⟨PyVal.pseq [.istr ".fa"], .pnone, none, none⟩ : ClsState).input_fmt =
      (⟨PyVal.pstr "fa", .pnone, none, none⟩ : ClsState).input_fmt ∧
    (⟨PyVal.pseq [.istr ".fa"], .pnone, none, none⟩ : ClsState).output_fmt =
      (⟨PyVal.pstr "fa", .pnone, none, none⟩ : ClsState).output_fmt ∧
    (⟨PyVal.pseq [.istr ".fa"], .pnone, none, none⟩ : ClsState).output_ext =
      (⟨PyVal.pstr "fa", .pnone, none, none⟩ : ClsState).output_ext :=
  C3_failure_attaches_no_descriptor "Fasta2Fastq"
    ⟨.pstr "fa", .pnone, none, none⟩ [skipWarnMsg "Fasta2Fastq" "output"]
    ⟨.pseq [.istr ".fa"], .pnone, none, none⟩
    (.typeError (badTypeErrMsg "Fasta2Fastq" "output")) (by decide)

/-- Claim C6: for every converter type name other than the exempt
ConvBase, a name without the character 2 makes registration fail with
the naming-convention TypeError and leaves the class untouched, and on
every successful registration the attached input and output format
tokens are the two halves of the name around its first 2, uppercased. -/
theorem C6_name_splits_into_formats (name : String) (st : ClsState)
    (hn : name ≠ "ConvBase") :
    (pyContains name '2' = false →
      convMetaInit name st =
        ([], st,
         some (.typeError "converter name must follow convention input2output"))) ∧
    (∀ logs st2, convMetaInit name st = (logs, st2, none) →
      st2.input_fmt = some (pyUpper (pySplitFirst name '2').1) ∧
      st2.output_fmt = some (pyUpper (pySplitFirst name '2').2)) := by
  constructor
  · intro h2
    unfold convMetaInit
    rw [if_neg hn, if_pos (by simp [h2])]
  · intro logs st2 h
    unfold convMetaInit at h
    rw [if_neg hn] at h
    split at h
    · simp only [Prod.mk.injEq] at h
      exact absurd h.2.2 (by simp)
    · split at h
      · simp only [Prod.mk.injEq] at h
        exact absurd h.2.2 (by simp)
      · split at h
        · simp only [Prod.mk.injEq] at h
          exact absurd h.2.2 (by simp)
        · simp only [Prod.mk.injEq] at h
          rw [← h.2.1, pySplitFirst_pyUpper]
          exact ⟨rfl, rfl⟩

/-- Witness for C6 at a concrete rejected and a concrete accepted name. -/
theorem C6_name_splits_into_formats_witness :
    convMetaInit "Nope" ⟨.pstr "fa", .pstr "fq", none, none⟩ =
      ([], ⟨.pstr "fa", .pstr "fq", none, none⟩,
       some (.typeError "converter name must follow convention input2output")) ∧
    (⟨PyVal.pseq [.istr ".fa"], .pseq [.istr ".fq"], some "FASTA", some "FASTQ"⟩ :
        ClsState).input_fmt =
      some (pyUpper (pySplitFirst "Fasta2Fastq" '2').1) :=
  ⟨(C6_name_splits_into_formats "Nope" ⟨.pstr "fa", .pstr "fq", none, none⟩
      (by decide)).1 (by decide),
   ((C6_name_splits_into_formats "Fasta2Fastq"
        ⟨.pstr "fa", .pstr "fq", none, none⟩ (by decide)).2
      [] ⟨.pseq [.istr ".fa"], .pseq [.istr ".fq"], some "FASTA", some "FASTQ"⟩
      (by decide)).1⟩

/-- Claim C7 is refuted on the code: an empty list is a (vacuously)
homogeneous sequence of strings, its validation succeeds, and the
attached declaration is the empty sequence, which is not non-empty as
the claim requires. -/
theorem C7_empty_sequence_accepted_cex :
    check_ext "Fasta2Fastq" (.pseq []) "input" = ([], .ok (.pseq [])) ∧
    ([] : List PyItem).length = 0 := by decide

/-- Claim C7 as amended: for every extension declaration that is a
string or a NON-EMPTY homogeneous sequence of strings, validation
succeeds and the attached declaration is a non-empty ordered sequence in
which every element begins with a dot and is otherwise preserved
verbatim (an already dotted element is kept unchanged, the others only
gain a leading dot); a single string is wrapped into a one-element
sequence. -/
theorem C7_accepted_declarations_normalized (clsName io_name s : String)
    (ss : List String) (hne : ss ≠ []) :
    check_ext clsName (.pstr s) io_name =
      ([], .ok (.pseq [.istr (fixOneExt s)])) ∧
    check_ext clsName (.pseq (ss.map PyItem.istr)) io_name =
      ([], .ok (.pseq ((ss.map fixOneExt).map PyItem.istr))) ∧
    ss.map fixOneExt ≠ [] ∧
    (∀ e ∈ ss.map fixOneExt, startsWithDot e = true) ∧
    startsWithDot (fixOneExt s) = true ∧
    (∀ e, startsWithDot e = true → fixOneExt e = e) := by
  have hstr : (ss.map PyItem.istr).all PyItem.isStr = true := by
    simp only [List.all_eq_true, List.mem_map]
    rintro _ ⟨x, -, rfl⟩
    rfl
  refine ⟨rfl, ?_, by simpa using hne, ?_, startsWithDot_fixOneExt s,
    fun e he => fixOneExt_of_dotted he⟩
  · simp only [check_ext, hstr, if_true]
    by_cases hd : (ss.map PyItem.istr).all PyItem.startsDotted = true
    · rw [if_pos hd]
      simp only [List.all_eq_true, List.mem_map] at hd
      have hid : ss.map fixOneExt = ss := by
        have : ∀ a ∈ ss, fixOneExt a = id a := by
          intro a ha
          exact fixOneExt_of_dotted (hd _ ⟨a, ha, rfl⟩)
        rw [List.map_congr_left this, List.map_id]
      rw [hid]
    · rw [if_neg hd]
      rw [List.map_map, List.map_map]
      rfl
  · intro e he
    obtain ⟨x, -, rfl⟩ := List.mem_map.mp he
    exact startsWithDot_fixOneExt x

/-- Witness for the amended C7 at a concrete mixed declaration. -/
theorem C7_accepted_declarations_normalized_witness :
    check_ext "Fasta2Fastq" (.pseq (["fa", ".fb"].map PyItem.istr)) "input" =
      ([], .ok (.pseq ((["fa", ".fb"].map fixOneExt).map PyItem.istr))) ∧
    ["fa", ".fb"].map fixOneExt ≠ [] :=
  ⟨(C7_accepted_declarations_normalized "Fasta2Fastq" "input" "fq" ["fa", ".fb"]
      (by decide)).2.1,
   (C7_accepted_declarations_normalized "Fasta2Fastq" "input" "fq" ["fa", ".fb"]
      (by decide)).2.2.1⟩

/-- Claim C8: a sequence containing a non-string element fails with the
TypeError whose message names the offending side io_name, and a
declaration of unsupported type (None, or any non-string non-sequence
object) fails with the TypeError naming the side after a warning
diagnostic has been emitted. -/
theorem C8_rejections_name_offending_side (clsName io_name : String) :
    (∀ xs : List PyItem, xs.all PyItem.isStr = false →
      check_ext clsName (.pseq xs) io_name =
        ([], .error (.typeError (seqErrMsg clsName io_name)))) ∧
    (∀ n : Int,
      check_ext clsName .pnone io_name =
        ([skipWarnMsg clsName io_name],
         .error (.typeError (badTypeErrMsg clsName io_name))) ∧
      check_ext clsName (.pint n) io_name =
        ([skipWarnMsg clsName io_name],
         .error (.typeError (badTypeErrMsg clsName io_name)))) ∧
    (∃ pre post, seqErrMsg clsName io_name = pre ++ io_name ++ post) ∧
    (∃ pre post, badTypeErrMsg clsName io_name = pre ++ io_name ++ post) ∧
    [skipWarnMsg clsName io_name] ≠ [] := by
  refine ⟨?_, fun n => ⟨rfl, rfl⟩,
    ⟨"each element of the class attribute " ++ clsName ++ ".",
     "_ext must be a string", rfl⟩,
    ⟨"the class attribute " ++ clsName ++ ".",
     "_ext must be specified in the class or subclasses", rfl⟩,
    by simp⟩
  intro xs hxs
  simp only [check_ext, hxs]
  rfl

/-- Witness for C8 at a concrete heterogeneous sequence. -/
theorem C8_rejections_name_offending_side_witness :
    check_ext "Fasta2Fastq" (.pseq [.istr "fa", .iint 3]) "input" =
      ([], .error (.typeError (seqErrMsg "Fasta2Fastq" "input"))) :=
  (C8_rejections_name_offending_side "Fasta2Fastq" "input").1
    [.istr "fa", .iint 3] (by decide)

/-- Claim C9: extension normalization is idempotent — whenever check_ext
accepts a declaration and attaches a value, running check_ext on the
attached value accepts it and attaches the very same value. -/
theorem C9_normalization_idempotent (clsName io_name : String)
    (ext att : PyVal) (logs : List String)
    (h : check_ext clsName ext io_name = (logs, .ok att)) :
    check_ext clsName att io_name = ([], .ok att) := by
  cases ext with
  | pstr s =>
      obtain ⟨-, hatt⟩ : logs = [] ∧ att = .pseq [.istr (fixOneExt s)] := by
        simpa [check_ext, Prod.ext_iff] using h.symm
      subst hatt
      simp [check_ext, PyItem.isStr, PyItem.startsDotted, startsWithDot_fixOneExt]
  | pseq xs =>
      by_cases hs : xs.all PyItem.isStr = true
      · by_cases hd : xs.all PyItem.startsDotted = true
        · obtain ⟨-, hatt⟩ : logs = [] ∧ att = .pseq xs := by
            simpa [check_ext, hs, hd, Prod.ext_iff] using h.symm
          subst hatt
          simp [check_ext, hs, hd]
        · obtain ⟨-, hatt⟩ : logs = [] ∧ att = .pseq (xs.map PyItem.fixDot) := by
            simpa [check_ext, hs, hd, Prod.ext_iff] using h.symm
          subst hatt
          simp [check_ext, all_isStr_map_fixDot hs, all_startsDotted_map_fixDot hs]
      · exfalso
        simpa [check_ext, hs] using h.symm
  | pnone => exact absurd h.symm (by simp [check_ext])
  | pint n => exact absurd h.symm (by simp [check_ext])

/-- Witness for C9 at a concrete single-string declaration. -/
theorem C9_normalization_idempotent_witness :
    check_ext "Fasta2Fastq" (.pseq [.istr ".fa"]) "input" =
      ([], .ok (.pseq [.istr ".fa"])) :=
  C9_normalization_idempotent "Fasta2Fastq" "input" (.pstr "fa")
    (.pseq [.istr ".fa"]) [] (by decide)

end Bioconvert
